import Mathlib

/-
Verification of the agent-assembly program in src/src/app.py.

The program wires together a tool registry, a prompt-template set with a
compiled-in default (DEFAULT_PROMPTS) optionally overridden field-by-field
from a YAML document (prompts.yaml), a hosted-model handle, and a web UI.

Shallow embedding conventions:
  - YAML values are modelled by the inductive type Yaml; Python truthiness
    of a parsed document is Yaml.truthy.
  - Fallible external calls (HfApiModel construction, load_tool, the
    open/yaml.safe_load of prompts.yaml, pytz resolution plus strftime,
    agent invocation, the gradio imports, demo.launch) are modelled as
    Except-valued inputs supplied by the environment.
  - Python dict state: the source computes
    prompt_templates = DEFAULT_PROMPTS.copy(), a SHALLOW copy, so the
    nested dicts final_answer, planning and managed_agent of the copy are
    the very same objects as those of DEFAULT_PROMPTS.  Item assignments
    of the form prompt_templates[section][key] = v therefore mutate the
    dicts shared with DEFAULT_PROMPTS, while the top-level assignment
    prompt_templates[key] = v only rebinds the key in the copy.
    create_agent is embedded in state-passing style: it takes the current
    value of the global DEFAULT_PROMPTS and returns, next to its result,
    the value that the global holds after the call under exactly this
    aliasing discipline.
-/

/-- A parsed YAML value, as produced by yaml.safe_load.  Mapping keys are
restricted to strings; a document with non-string keys behaves, for every
string-key lookup the merge performs, like one in which those keys are
absent. -/
inductive Yaml where
  | null
  | bool (b : Bool)
  | int (n : Int)
  | str (s : String)
  | list (xs : List Yaml)
  | map (entries : List (String × Yaml))

/-- Python truthiness of a parsed YAML value: the source guards the merge
with `if loaded_prompts:`. -/
def Yaml.truthy : Yaml → Bool
  | .null => false
  | .bool b => b
  | .int n => n != 0
  | .str s => s != ""
  | .list xs => !xs.isEmpty
  | .map m => !m.isEmpty

/-- isinstance(v, dict) on a parsed YAML value. -/
def Yaml.isMap : Yaml → Bool
  | .map _ => true
  | _ => false

/-- The final_answer section of a prompt-template set. -/
structure FinalAnswerTemplates where
  pre_messages : Yaml
  post_messages : Yaml

/-- The planning section of a prompt-template set: the six known sub-keys. -/
structure PlanningTemplates where
  initial_facts : Yaml
  initial_plan : Yaml
  update_facts_pre_messages : Yaml
  update_facts_post_messages : Yaml
  update_plan_pre_messages : Yaml
  update_plan_post_messages : Yaml

/-- The managed_agent section of a prompt-template set. -/
structure ManagedAgentTemplates where
  task : Yaml
  report : Yaml

/-- The prompt-template dictionary shape used by app.py: the four
top-level keys of DEFAULT_PROMPTS. -/
structure PromptTemplates where
  system_prompt : Yaml
  final_answer : FinalAnswerTemplates
  planning : PlanningTemplates
  managed_agent : ManagedAgentTemplates

/-- The compiled-in default template constant DEFAULT_PROMPTS of app.py
(braces and apostrophes of the source strings written as \x7b, \x7d, \x27
escapes). -/
def DEFAULT_PROMPTS : PromptTemplates :=
  { system_prompt := .str "You are an expert assistant who can solve any task using code blobs.",
    final_answer :=
      { pre_messages := .str "Here is the final answer to your question:",
        post_messages := .str "Hope this helps!" },
    planning :=
      { initial_facts := .str "First, let\x27s identify what we know and what we need to find out.",
        initial_plan := .str "Let\x27s develop a step-by-step plan to solve this task.",
        update_facts_pre_messages := .str "Let\x27s update what we know based on our progress.",
        update_facts_post_messages := .str "Here\x27s our updated knowledge about the task.",
        update_plan_pre_messages := .str "Let\x27s review our plan based on what we\x27ve learned.",
        update_plan_post_messages := .str "Here\x27s our revised plan to complete the task." },
    managed_agent :=
      { task := .str "You\x27re a helpful agent named \x27\x7b\x7bname\x7d\x7d\x27. You have been submitted this task by your manager.",
        report := .str "Here is the final answer from your managed agent \x27\x7b\x7bname\x7d\x7d\x27: \x7b\x7bfinal_answer\x7d\x7d" } }

/-- The `if "system_prompt" in loaded_prompts: prompt_templates["system_prompt"] = ...`
step of the merge.  This assignment rebinds a key of the shallow copy only. -/
def mergeSystemPrompt (pt : PromptTemplates) (entries : List (String × Yaml)) : PromptTemplates :=
  match entries.lookup "system_prompt" with
  | some v => { pt with system_prompt := v }
  | none => pt

/-- The final_answer step of the merge: if the override value is a mapping,
copy pre_messages / post_messages individually when present; otherwise
(plain value, the legacy shape) assign it to pre_messages only. -/
def mergeFinalAnswerSection (pt : PromptTemplates) (entries : List (String × Yaml)) : PromptTemplates :=
  match entries.lookup "final_answer" with
  | some (.map fa) =>
      { pt with final_answer :=
          { pre_messages := (fa.lookup "pre_messages").getD pt.final_answer.pre_messages,
            post_messages := (fa.lookup "post_messages").getD pt.final_answer.post_messages } }
  | some v => { pt with final_answer := { pt.final_answer with pre_messages := v } }
  | none => pt

/-- The planning step of the merge: guarded by
`if "planning" in loaded_prompts and isinstance(loaded_prompts["planning"], dict)`;
for each of the six keys of prompt_templates["planning"], copy the override
value exactly when that key is present in the override planning mapping. -/
def mergePlanningSection (pt : PromptTemplates) (entries : List (String × Yaml)) : PromptTemplates :=
  match entries.lookup "planning" with
  | some (.map pl) =>
      { pt with planning :=
          { initial_facts := (pl.lookup "initial_facts").getD pt.planning.initial_facts,
            initial_plan := (pl.lookup "initial_plan").getD pt.planning.initial_plan,
            update_facts_pre_messages :=
              (pl.lookup "update_facts_pre_messages").getD pt.planning.update_facts_pre_messages,
            update_facts_post_messages :=
              (pl.lookup "update_facts_post_messages").getD pt.planning.update_facts_post_messages,
            update_plan_pre_messages :=
              (pl.lookup "update_plan_pre_messages").getD pt.planning.update_plan_pre_messages,
            update_plan_post_messages :=
              (pl.lookup "update_plan_post_messages").getD pt.planning.update_plan_post_messages } }
  | _ => pt

/-- The whole `if loaded_prompts:` body for a truthy mapping document. -/
def mergeLoaded (defaults : PromptTemplates) (entries : List (String × Yaml)) : PromptTemplates :=
  mergePlanningSection (mergeFinalAnswerSection (mergeSystemPrompt defaults entries) entries) entries

/-- The prompt-configuration loading step of create_agent.  `load` is the
outcome of `open("prompts.yaml")` followed by `yaml.safe_load`: an error if
the file is absent, unreadable or fails to parse, otherwise the parsed
value.  A falsy parsed value skips the merge.  A truthy value that is not a
mapping makes the first subscript of the merge raise TypeError before any
assignment has happened; the except clause catches it, so the defaults
stand unchanged — hence the non-mapping arm returns `defaults`. -/
def loadPromptTemplates (defaults : PromptTemplates) (load : Except String Yaml) : PromptTemplates :=
  match load with
  | .error _ => defaults
  | .ok loaded_prompts =>
    if loaded_prompts.truthy then
      match loaded_prompts with
      | .map entries => mergeLoaded defaults entries
      | _ => defaults
    else defaults

/-- The tools of app.py, by identity.  The first four are constructed
locally or imported; the last is fetched from the remote registry. -/
inductive ToolId where
  | myCustomTool
  | getCurrentTimeInTimezone
  | finalAnswerTool
  | visitWebpageTool
  | imageGenerationTool
deriving DecidableEq

/-- The CodeAgent configuration object assembled by create_agent. -/
structure Agent where
  tools : List ToolId
  max_steps : Nat
  verbosity_level : Nat
  grammar : Option Unit
  planning_interval : Option Nat
  name : String
  description : String
  prompt_templates : PromptTemplates

/-- Outcomes of the external calls create_agent performs:
HfApiModel(), load_tool("agents-course/text-to-image", ...), and the
open + yaml.safe_load of prompts.yaml.  The String of an error is the
message str(e) of the raised exception. -/
structure Env where
  hfApiModel : Except String Unit
  loadImageTool : Except String Unit
  promptsYaml : Except String Yaml

/-- create_agent of app.py in state-passing style.  The first component is
the returned agent, or the message of the RuntimeError it raises; the
second component is the value of the global DEFAULT_PROMPTS after the call
(the shallow copy aliases the nested final_answer and planning dicts, so
the in-place section merges are visible through the global, while the
managed_agent section and the rebound top-level system_prompt key of the
copy are not). -/
def create_agent (defaults : PromptTemplates) (env : Env) : Except String Agent × PromptTemplates :=
  match env.hfApiModel with
  | .error e => (.error ("Failed to initialize model: " ++ e), defaults)
  | .ok _ =>
    let image_ok : Bool := match env.loadImageTool with
      | .ok _ => true
      | .error _ => false
    let prompt_templates := loadPromptTemplates defaults env.promptsYaml
    let tools : List ToolId :=
      [.myCustomTool, .getCurrentTimeInTimezone, .finalAnswerTool, .visitWebpageTool]
        ++ (if image_ok then [.imageGenerationTool] else [])
    (Except.ok
      { tools := tools,
        max_steps := 6,
        verbosity_level := 1,
        grammar := none,
        planning_interval := none,
        name := "Agent",
        description := "A CodeAgent with improved capabilities",
        prompt_templates := prompt_templates },
     { defaults with
        final_answer := prompt_templates.final_answer,
        planning := prompt_templates.planning })

/-- get_current_time_in_timezone of app.py.  `resolveFormat` is the outcome
of pytz.timezone(timezone) followed by datetime.datetime.now(tz).strftime:
on success the formatted local-time string, on failure the message str(e)
of the exception the lookup raised.  The function is total: both branches
return a string. -/
def get_current_time_in_timezone (resolveFormat : String → Except String String)
    (timezone : String) : String :=
  match resolveFormat timezone with
  | .ok local_time => "The current local time in " ++ timezone ++ " is: " ++ local_time
  | .error e => "Error fetching time for timezone \x27" ++ timezone ++ "\x27: " ++ e

/-- process_request of run_app.  `agent` is the outcome of the framework
call agent(task): the answer text, or the message str(e) of the exception
it raised.  The function is total: both branches return a string. -/
def process_request (agent : String → Except String String) (task : String) : String :=
  match agent task with
  | .ok result => result
  | .error e => "Error processing your request: " ++ e

/-- How a call of run_app ends: the re-raised gradio ImportError, a normal
return after demo.launch, or a normal return after the outer except clause
caught an exception and printed the given "Critical error" line. -/
inductive RunAppResult where
  | raisedImportError (e : String)
  | launched
  | returnedCriticalError (printed : String)

/-- Whether this run_app outcome propagates an exception to the caller. -/
def RunAppResult.raisesToCaller : RunAppResult → Bool
  | .raisedImportError _ => true
  | .launched => false
  | .returnedCriticalError _ => false

/-- run_app of app.py in state-passing style.  `gradioImports` is the
outcome of the gradio / Gradio_UI imports, `launch` the outcome of building
the Blocks UI and calling demo.launch.  An ImportError is logged and
re-raised; any exception of the body (create_agent included) is caught,
logged and printed as a Critical error line, and run_app returns normally. -/
def run_app (gradioImports : Except String Unit) (defaults : PromptTemplates)
    (env : Env) (launch : Except String Unit) : RunAppResult × PromptTemplates :=
  match gradioImports with
  | .error e => (.raisedImportError e, defaults)
  | .ok _ =>
    match create_agent defaults env with
    | (.error e, d) => (.returnedCriticalError ("Critical error: " ++ e), d)
    | (.ok _, d) =>
      match launch with
      | .error e => (.returnedCriticalError ("Critical error: " ++ e), d)
      | .ok _ => (.launched, d)

/-- s contains pat as a (contiguous) substring. -/
def containsText (s pat : String) : Prop :=
  ∃ pre post : List Char, s.data = pre ++ pat.data ++ post

/-
Helper lemmas about the merge steps.
-/

/-- The system_prompt step never touches the final_answer section. -/
theorem mergeSystemPrompt_final_answer (pt : PromptTemplates) (entries : List (String × Yaml)) :
    (mergeSystemPrompt pt entries).final_answer = pt.final_answer := by
  unfold mergeSystemPrompt; split <;> rfl

/-- The system_prompt step never touches the managed_agent section. -/
theorem mergeSystemPrompt_managed_agent (pt : PromptTemplates) (entries : List (String × Yaml)) :
    (mergeSystemPrompt pt entries).managed_agent = pt.managed_agent := by
  unfold mergeSystemPrompt; split <;> rfl

/-- The final_answer step never touches the managed_agent section. -/
theorem mergeFinalAnswerSection_managed_agent (pt : PromptTemplates) (entries : List (String × Yaml)) :
    (mergeFinalAnswerSection pt entries).managed_agent = pt.managed_agent := by
  unfold mergeFinalAnswerSection; split <;> rfl

/-- The planning step never touches the final_answer section. -/
theorem mergePlanningSection_final_answer (pt : PromptTemplates) (entries : List (String × Yaml)) :
    (mergePlanningSection pt entries).final_answer = pt.final_answer := by
  unfold mergePlanningSection; split <;> rfl

/-- The planning step never touches the managed_agent section. -/
theorem mergePlanningSection_managed_agent (pt : PromptTemplates) (entries : List (String × Yaml)) :
    (mergePlanningSection pt entries).managed_agent = pt.managed_agent := by
  unfold mergePlanningSection; split <;> rfl

/-- The whole merge never touches the managed_agent section. -/
theorem mergeLoaded_managed_agent (defaults : PromptTemplates) (entries : List (String × Yaml)) :
    (mergeLoaded defaults entries).managed_agent = defaults.managed_agent := by
  unfold mergeLoaded
  rw [mergePlanningSection_managed_agent, mergeFinalAnswerSection_managed_agent,
    mergeSystemPrompt_managed_agent]

/-- The loading step on a successfully parsed document, with the match on
the load outcome reduced away. -/
theorem loadPromptTemplates_ok (defaults : PromptTemplates) (y : Yaml) :
    loadPromptTemplates defaults (Except.ok y)
      = if y.truthy then
          (match y with
           | Yaml.map entries => mergeLoaded defaults entries
           | _ => defaults)
        else defaults := rfl

/-- The loading step never touches the managed_agent section, whatever the
document is. -/
theorem loadPromptTemplates_managed_agent (defaults : PromptTemplates) (load : Except String Yaml) :
    (loadPromptTemplates defaults load).managed_agent = defaults.managed_agent := by
  cases load with
  | error e => rfl
  | ok y =>
    rw [loadPromptTemplates_ok]
    cases hy : y.truthy with
    | false => simp
    | true =>
      rw [if_pos rfl]
      cases y with
      | map entries => exact mergeLoaded_managed_agent defaults entries
      | null => rfl
      | bool b => rfl
      | int n => rfl
      | str s => rfl
      | list xs => rfl

/-- Without a system_prompt key the system_prompt step is the identity. -/
theorem mergeSystemPrompt_of_none (pt : PromptTemplates) (entries : List (String × Yaml))
    (h : entries.lookup "system_prompt" = none) : mergeSystemPrompt pt entries = pt := by
  unfold mergeSystemPrompt; rw [h]

/-- Without a final_answer key the final_answer step is the identity. -/
theorem mergeFinalAnswerSection_of_none (pt : PromptTemplates) (entries : List (String × Yaml))
    (h : entries.lookup "final_answer" = none) : mergeFinalAnswerSection pt entries = pt := by
  unfold mergeFinalAnswerSection; rw [h]

/-- A plain (non-mapping) final_answer override value lands in pre_messages
and leaves post_messages as it was. -/
theorem mergeFinalAnswerSection_plain (pt : PromptTemplates) (entries : List (String × Yaml))
    (v : Yaml) (hfa : entries.lookup "final_answer" = some v) (hnm : v.isMap = false) :
    (mergeFinalAnswerSection pt entries).final_answer
      = { pre_messages := v, post_messages := pt.final_answer.post_messages } := by
  unfold mergeFinalAnswerSection
  rw [hfa]
  cases v with
  | map m => simp [Yaml.isMap] at hnm
  | null => rfl
  | bool b => rfl
  | int n => rfl
  | str s => rfl
  | list xs => rfl

/-- The planning step with a mapping override, written out field by field. -/
theorem mergePlanningSection_map (pt : PromptTemplates) (entries pl : List (String × Yaml))
    (h : entries.lookup "planning" = some (Yaml.map pl)) :
    mergePlanningSection pt entries
      = { pt with planning :=
          { initial_facts := (pl.lookup "initial_facts").getD pt.planning.initial_facts,
            initial_plan := (pl.lookup "initial_plan").getD pt.planning.initial_plan,
            update_facts_pre_messages :=
              (pl.lookup "update_facts_pre_messages").getD pt.planning.update_facts_pre_messages,
            update_facts_post_messages :=
              (pl.lookup "update_facts_post_messages").getD pt.planning.update_facts_post_messages,
            update_plan_pre_messages :=
              (pl.lookup "update_plan_pre_messages").getD pt.planning.update_plan_pre_messages,
            update_plan_post_messages :=
              (pl.lookup "update_plan_post_messages").getD pt.planning.update_plan_post_messages } } := by
  unfold mergePlanningSection
  rw [h]

/-
Claim theorems.
-/

/-- Claim C1: when the external prompts.yaml document is absent, unreadable
or fails to parse (the load errs), or yaml.safe_load returns a falsy value
(None, empty document), create_agent succeeds (given a model handle) and
the prompt template set passed to the agent equals the compiled-in default
set DEFAULT_PROMPTS exactly, in every key. -/
theorem create_agent_bad_yaml_yields_defaults (img : Except String Unit)
    (load : Except String Yaml)
    (h : (∃ e, load = Except.error e) ∨ ∃ y, load = Except.ok y ∧ y.truthy = false) :
    ((create_agent DEFAULT_PROMPTS
        { hfApiModel := Except.ok (), loadImageTool := img, promptsYaml := load }).1).map
      Agent.prompt_templates = Except.ok DEFAULT_PROMPTS := by
  have hload : loadPromptTemplates DEFAULT_PROMPTS load = DEFAULT_PROMPTS := by
    rcases h with ⟨e, rfl⟩ | ⟨y, rfl, hfalse⟩
    · rfl
    · rw [loadPromptTemplates_ok, if_neg]
      simp [hfalse]
  show Except.ok (loadPromptTemplates DEFAULT_PROMPTS load) = Except.ok DEFAULT_PROMPTS
  rw [hload]

/-- Witness for C1: a concrete run whose prompts.yaml open fails. -/
theorem create_agent_bad_yaml_yields_defaults_witness :
    ((create_agent DEFAULT_PROMPTS
        { hfApiModel := Except.ok (), loadImageTool := Except.ok (),
          promptsYaml := Except.error "No such file or directory: prompts.yaml" }).1).map
      Agent.prompt_templates = Except.ok DEFAULT_PROMPTS :=
  create_agent_bad_yaml_yields_defaults (Except.ok ())
    (Except.error "No such file or directory: prompts.yaml") (Or.inl ⟨_, rfl⟩)

/-- Claim C2 (refuted; the code has the bug, the claim states the intended
behavior): DEFAULT_PROMPTS.copy() is a shallow copy, so a first
create_agent call whose override document carries a plain final_answer
value "X" mutates the nested final_answer mapping shared with
DEFAULT_PROMPTS; a second call with an absent override document then
produces pre_messages "X" instead of the compiled-in default, so repeated
agent creations do cross-contaminate. -/
theorem create_agent_shallow_copy_contaminates_defaults :
    ((create_agent DEFAULT_PROMPTS
        { hfApiModel := Except.ok (), loadImageTool := Except.ok (),
          promptsYaml := Except.ok (Yaml.map [("final_answer", Yaml.str "X")]) }).2).final_answer.pre_messages
      = Yaml.str "X"
    ∧ DEFAULT_PROMPTS.final_answer.pre_messages
      = Yaml.str "Here is the final answer to your question:"
    ∧ Yaml.str "X" ≠ Yaml.str "Here is the final answer to your question:"
    ∧ ((create_agent
          ((create_agent DEFAULT_PROMPTS
            { hfApiModel := Except.ok (), loadImageTool := Except.ok (),
              promptsYaml := Except.ok (Yaml.map [("final_answer", Yaml.str "X")]) }).2)
          { hfApiModel := Except.ok (), loadImageTool := Except.ok (),
            promptsYaml := Except.error "No such file or directory: prompts.yaml" }).1).map
        (fun a => a.prompt_templates.final_answer.pre_messages) = Except.ok (Yaml.str "X") := by
  refine ⟨rfl, rfl, ?_, rfl⟩
  intro hcontra
  injection hcontra with hcontra
  exact absurd hcontra (by decide)

/-- Claim C3: get_current_time_in_timezone is total (it returns a string in
both branches of its embedding), and whenever the timezone resolution
raises — in particular on an unrecognized identifier such as
"Not/ARealZone" — the returned string contains the literal substring
"Error fetching time for timezone". -/
theorem get_current_time_in_timezone_error_contract
    (resolveFormat : String → Except String String) (timezone e : String)
    (h : resolveFormat timezone = Except.error e) :
    get_current_time_in_timezone resolveFormat timezone
      = "Error fetching time for timezone \x27" ++ timezone ++ "\x27: " ++ e
    ∧ containsText (get_current_time_in_timezone resolveFormat timezone)
        "Error fetching time for timezone" := by
  have hval : get_current_time_in_timezone resolveFormat timezone
      = "Error fetching time for timezone \x27" ++ timezone ++ "\x27: " ++ e := by
    unfold get_current_time_in_timezone
    rw [h]
  refine ⟨hval, ?_⟩
  rw [hval]
  unfold containsText
  refine ⟨[], (" \x27" : String).data ++ timezone.data ++ ("\x27: " : String).data ++ e.data, ?_⟩
  have hsplit : ("Error fetching time for timezone \x27" : String).data
      = ("Error fetching time for timezone" : String).data ++ (" \x27" : String).data := by decide
  simp [String.data_append, hsplit, List.append_assoc]

/-- Witness for C3: the unrecognized identifier "Not/ARealZone", with the
resolution failing the way pytz does. -/
theorem get_current_time_in_timezone_error_contract_witness :
    get_current_time_in_timezone
        (fun _ => Except.error "\x27Not/ARealZone\x27") "Not/ARealZone"
      = "Error fetching time for timezone \x27" ++ "Not/ARealZone" ++ "\x27: " ++ "\x27Not/ARealZone\x27"
    ∧ containsText
        (get_current_time_in_timezone
          (fun _ => Except.error "\x27Not/ARealZone\x27") "Not/ARealZone")
        "Error fetching time for timezone" :=
  get_current_time_in_timezone_error_contract
    (fun _ => Except.error "\x27Not/ARealZone\x27") "Not/ARealZone" "\x27Not/ARealZone\x27" rfl

/-- Claim C4: if HfApiModel construction fails with message e, create_agent
raises the wrapped RuntimeError "Failed to initialize model: e" and returns
no agent object, for every outcome of the remote tool load and of the
prompt document load — the failure precedes both steps, which are never
attempted, and the global defaults are left untouched. -/
theorem create_agent_model_failure_fatal (defaults : PromptTemplates)
    (img : Except String Unit) (load : Except String Yaml) (e : String) :
    create_agent defaults
        { hfApiModel := Except.error e, loadImageTool := img, promptsYaml := load }
      = (Except.error ("Failed to initialize model: " ++ e), defaults) := rfl

/-- Claim C5: if the remote image-generation tool load raises, create_agent
still succeeds and the agent's tool registry is exactly the four
local/imported tools; in the success case the image-generation tool is
appended as a fifth entry. -/
theorem create_agent_image_tool_soft_fail (defaults : PromptTemplates)
    (load : Except String Yaml) (e : String) :
    ((create_agent defaults
        { hfApiModel := Except.ok (), loadImageTool := Except.error e, promptsYaml := load }).1).map
      Agent.tools
      = Except.ok [ToolId.myCustomTool, ToolId.getCurrentTimeInTimezone,
          ToolId.finalAnswerTool, ToolId.visitWebpageTool]
    ∧ ((create_agent defaults
        { hfApiModel := Except.ok (), loadImageTool := Except.ok (), promptsYaml := load }).1).map
      Agent.tools
      = Except.ok [ToolId.myCustomTool, ToolId.getCurrentTimeInTimezone,
          ToolId.finalAnswerTool, ToolId.visitWebpageTool, ToolId.imageGenerationTool] :=
  ⟨rfl, rfl⟩

/-- Claim C6: a final_answer override that is a plain (non-mapping) value v
yields a merged set whose final_answer.pre_messages is v while
final_answer.post_messages keeps the compiled-in default. -/
theorem merge_final_answer_plain_value (entries : List (String × Yaml)) (v : Yaml)
    (hfa : entries.lookup "final_answer" = some v) (hnm : v.isMap = false) :
    (loadPromptTemplates DEFAULT_PROMPTS (Except.ok (Yaml.map entries))).final_answer.pre_messages = v
    ∧ (loadPromptTemplates DEFAULT_PROMPTS (Except.ok (Yaml.map entries))).final_answer.post_messages
        = DEFAULT_PROMPTS.final_answer.post_messages := by
  obtain ⟨hd, tl, rfl⟩ : ∃ hd tl, entries = hd :: tl := by
    cases entries with
    | nil => simp [List.lookup] at hfa
    | cons hd tl => exact ⟨hd, tl, rfl⟩
  have hload : loadPromptTemplates DEFAULT_PROMPTS (Except.ok (Yaml.map (hd :: tl)))
      = mergeLoaded DEFAULT_PROMPTS (hd :: tl) := rfl
  rw [hload]
  unfold mergeLoaded
  rw [mergePlanningSection_final_answer, mergeFinalAnswerSection_plain _ _ _ hfa hnm,
    mergeSystemPrompt_final_answer]
  exact ⟨rfl, rfl⟩

/-- Witness for C6: the override document mapping final_answer to the plain
string "X". -/
theorem merge_final_answer_plain_value_witness :
    (loadPromptTemplates DEFAULT_PROMPTS
        (Except.ok (Yaml.map [("final_answer", Yaml.str "X")]))).final_answer.pre_messages
      = Yaml.str "X"
    ∧ (loadPromptTemplates DEFAULT_PROMPTS
        (Except.ok (Yaml.map [("final_answer", Yaml.str "X")]))).final_answer.post_messages
      = DEFAULT_PROMPTS.final_answer.post_messages :=
  merge_final_answer_plain_value [("final_answer", Yaml.str "X")] (Yaml.str "X") rfl rfl

/-- Claim C7: a valid override document that sets only planning.initial_plan
(no top-level system_prompt or final_answer key; under planning the known
sub-keys other than initial_plan are absent, while unknown sub-keys may be
present and are ignored) yields a merged template set that differs from the
compiled-in defaults in that single field only. -/
theorem merge_planning_initial_plan_only (entries pl : List (String × Yaml)) (v : Yaml)
    (hsp : entries.lookup "system_prompt" = none)
    (hfa : entries.lookup "final_answer" = none)
    (hpl : entries.lookup "planning" = some (Yaml.map pl))
    (hip : pl.lookup "initial_plan" = some v)
    (h1 : pl.lookup "initial_facts" = none)
    (h2 : pl.lookup "update_facts_pre_messages" = none)
    (h3 : pl.lookup "update_facts_post_messages" = none)
    (h4 : pl.lookup "update_plan_pre_messages" = none)
    (h5 : pl.lookup "update_plan_post_messages" = none) :
    loadPromptTemplates DEFAULT_PROMPTS (Except.ok (Yaml.map entries))
      = { DEFAULT_PROMPTS with
            planning := { DEFAULT_PROMPTS.planning with initial_plan := v } } := by
  obtain ⟨hd, tl, rfl⟩ : ∃ hd tl, entries = hd :: tl := by
    cases entries with
    | nil => simp [List.lookup] at hpl
    | cons hd tl => exact ⟨hd, tl, rfl⟩
  have hload : loadPromptTemplates DEFAULT_PROMPTS (Except.ok (Yaml.map (hd :: tl)))
      = mergeLoaded DEFAULT_PROMPTS (hd :: tl) := rfl
  rw [hload]
  unfold mergeLoaded
  rw [mergeSystemPrompt_of_none _ _ hsp, mergeFinalAnswerSection_of_none _ _ hfa,
    mergePlanningSection_map _ _ _ hpl, hip, h1, h2, h3, h4, h5]
  rfl

/-- Witness for C7: an override document whose planning mapping carries
initial_plan and an unknown sub-key, which is ignored. -/
theorem merge_planning_initial_plan_only_witness :
    loadPromptTemplates DEFAULT_PROMPTS
        (Except.ok (Yaml.map
          [("planning", Yaml.map
            [("initial_plan", Yaml.str "P"), ("mystery_key", Yaml.int 3)])]))
      = { DEFAULT_PROMPTS with
            planning := { DEFAULT_PROMPTS.planning with initial_plan := Yaml.str "P" } } :=
  merge_planning_initial_plan_only
    [("planning", Yaml.map [("initial_plan", Yaml.str "P"), ("mystery_key", Yaml.int 3)])]
    [("initial_plan", Yaml.str "P"), ("mystery_key", Yaml.int 3)]
    (Yaml.str "P") rfl rfl rfl rfl rfl rfl rfl rfl rfl

/-- Claim C8: the UI submit handler process_request is total, and whenever
the agent invocation raises with message e the handler returns the
user-visible string "Error processing your request: " followed by e — the
exception never propagates out of the handler. -/
theorem process_request_catches_agent_errors (agent : String → Except String String)
    (task e : String) (h : agent task = Except.error e) :
    process_request agent task = "Error processing your request: " ++ e := by
  unfold process_request
  rw [h]

/-- Witness for C8: a concrete task whose agent invocation raises. -/
theorem process_request_catches_agent_errors_witness :
    process_request (fun _ => Except.error "model backend unreachable") "draw a cat"
      = "Error processing your request: " ++ "model backend unreachable" :=
  process_request_catches_agent_errors
    (fun _ => Except.error "model backend unreachable") "draw a cat"
    "model backend unreachable" rfl

/-- Claim C9: the managed_agent template section is never merged from the
override document: for every load outcome — including a document that
supplies a managed_agent key — the merged set keeps the compiled-in default
managed_agent section, and so does the post-call global state. -/
theorem managed_agent_never_overridden (load : Except String Yaml) :
    (loadPromptTemplates DEFAULT_PROMPTS load).managed_agent = DEFAULT_PROMPTS.managed_agent :=
  loadPromptTemplates_managed_agent DEFAULT_PROMPTS load

/-- Claim C10: with the gradio imports succeeding, run_app never re-raises:
a model-acquisition failure inside create_agent is caught and surfaces only
as the printed "Critical error" line, after which run_app returns normally;
for every environment and launch outcome the result does not propagate an
exception; and only an ImportError from the gradio imports is re-raised to
the caller. -/
theorem run_app_only_reraises_import_error (defaults : PromptTemplates) (env : Env)
    (launch : Except String Unit) (e : String)
    (hmodel : env.hfApiModel = Except.error e) :
    (run_app (Except.ok ()) defaults env launch).1
      = RunAppResult.returnedCriticalError
          ("Critical error: " ++ ("Failed to initialize model: " ++ e))
    ∧ (∀ (defaults2 : PromptTemplates) (env2 : Env) (launch2 : Except String Unit),
        (run_app (Except.ok ()) defaults2 env2 launch2).1.raisesToCaller = false)
    ∧ (∀ (ei : String) (defaults3 : PromptTemplates) (env3 : Env)
        (launch3 : Except String Unit),
        (run_app (Except.error ei) defaults3 env3 launch3).1
          = RunAppResult.raisedImportError ei) := by
  refine ⟨?_, ?_, fun ei d3 e3 l3 => rfl⟩
  · have hca : create_agent defaults env
        = (Except.error ("Failed to initialize model: " ++ e), defaults) := by
      unfold create_agent
      rw [hmodel]
    unfold run_app
    rw [hca]
  · intro d2 env2 l2
    unfold run_app
    rcases hca : create_agent d2 env2 with ⟨r, d⟩
    cases r with
    | error err => rfl
    | ok a =>
      cases l2 with
      | error err => rfl
      | ok u => rfl

/-- Witness for C10: a concrete model-acquisition failure. -/
theorem run_app_only_reraises_import_error_witness :
    (run_app (Except.ok ()) DEFAULT_PROMPTS
        { hfApiModel := Except.error "401 Client Error", loadImageTool := Except.ok (),
          promptsYaml := Except.error "No such file or directory: prompts.yaml" }
        (Except.ok ())).1
      = RunAppResult.returnedCriticalError
          ("Critical error: " ++ ("Failed to initialize model: " ++ "401 Client Error")) :=
  (run_app_only_reraises_import_error DEFAULT_PROMPTS
    { hfApiModel := Except.error "401 Client Error", loadImageTool := Except.ok (),
      promptsYaml := Except.error "No such file or directory: prompts.yaml" }
    (Except.ok ()) "401 Client Error" rfl).1
